import Mathlib

/-!
Shallow embedding of the status-classification module (src/config/api.ts)
and of the Dashboard handlers (src/components/dashboard/Dashboard.tsx) of
the bumm-frontend repository, together with theorems settling the claims
about them.
-/

/-- The four task types of the backend pipeline, from the TypeScript union
type in the signature of isTaskCompleted. -/
inductive TaskType
  | generate
  | audit
  | build
  | deploy
deriving DecidableEq, Repr

/-- The status strings of TASK_STATUS.GENERATE in src/config/api.ts. -/
def TASK_STATUS_GENERATE : List String :=
  ["new", "initializing", "initialized", "generating", "generated",
   "testing", "tested", "deploying", "deployed", "error"]

/-- isTaskCompleted from src/config/api.ts: a switch on the task type,
comparing the status with the terminal literal of that type. The generate
type is terminal at generated or deployed; audit at audited; build at
built; deploy at deployed. -/
def isTaskCompleted (status : String) (taskType : TaskType) : Bool :=
  match taskType with
  | .generate => status == "generated" || status == "deployed"
  | .audit => status == "audited"
  | .build => status == "built"
  | .deploy => status == "deployed"

/-- isTaskError from src/config/api.ts: the status equals the literal
error string, with no dependence on the task type. -/
def isTaskError (status : String) : Bool :=
  status == "error"

/-- getStatusDisplayName from src/config/api.ts: a lookup in the literal
record of display names, falling back to the raw status string when the
key is absent. Every value in the record is a non-empty string, so the
JavaScript truthiness fallback fires exactly on a missing key. -/
def getStatusDisplayName (status : String) : String :=
  if status = "new" then "New"
  else if status = "initializing" then "Initializing"
  else if status = "initialized" then "Initialized"
  else if status = "generating" then "Generating"
  else if status = "generated" then "Generated"
  else if status = "testing" then "Testing"
  else if status = "tested" then "Tested"
  else if status = "deploying" then "Deploying"
  else if status = "deployed" then "Deployed"
  else if status = "error" then "Error"
  else if status = "auditing" then "Auditing"
  else if status = "audited" then "Audited"
  else if status = "building" then "Building"
  else if status = "built" then "Built"
  else status

/-- The keys of the statusMap record inside getStatusDisplayName. -/
def displayStatusKeys : List String :=
  ["new", "initializing", "initialized", "generating", "generated",
   "testing", "tested", "deploying", "deployed", "error",
   "auditing", "audited", "building", "built"]

/-- The progress tuple returned by getProgressFromStatus: stage, percent
and message. -/
structure ProgressInfo where
  stage : String
  progress : Nat
  message : String
deriving DecidableEq, Repr

/-- getProgressFromStatus from src/config/api.ts: a lookup in the literal
record of progress tuples, falling back to the default non-terminal tuple
when the key is absent. The record has no key for the initialized status. -/
def getProgressFromStatus (status : String) : ProgressInfo :=
  if status = "new" then ⟨"initializing", 10, "Initializing..."⟩
  else if status = "initializing" then ⟨"initializing", 30, "Setting up environment..."⟩
  else if status = "generating" then ⟨"generating", 60, "Generating smart contract..."⟩
  else if status = "generated" then ⟨"completed", 100, "Contract generated successfully!"⟩
  else if status = "testing" then ⟨"testing", 80, "Running tests..."⟩
  else if status = "tested" then ⟨"deploying", 90, "Preparing for deployment..."⟩
  else if status = "deploying" then ⟨"deploying", 95, "Deploying to network..."⟩
  else if status = "deployed" then ⟨"completed", 100, "Contract deployed successfully!"⟩
  else if status = "error" then ⟨"error", 0, "Generation failed"⟩
  else if status = "auditing" then ⟨"generating", 50, "Analyzing code..."⟩
  else if status = "audited" then ⟨"completed", 100, "Audit completed!"⟩
  else if status = "building" then ⟨"generating", 50, "Building contract..."⟩
  else if status = "built" then ⟨"completed", 100, "Build completed!"⟩
  else ⟨"initializing", 0, "Processing..."⟩

/-- The keys of the statusMap record inside getProgressFromStatus. -/
def progressStatusKeys : List String :=
  ["new", "initializing", "generating", "generated", "testing", "tested",
   "deploying", "deployed", "error", "auditing", "audited", "building", "built"]

/-- User as held by the useBummApi hook: an id and a wallet address. Only
its presence or absence matters to the Dashboard guards. -/
structure User where
  id : String
  walletAddress : String
deriving DecidableEq, Repr

/-- The Project shape as used by Dashboard.tsx. The handlers read and
write both the camel-case contractAddress field (handleDeploy) and the
snake-case contract_address field (handleDuplicateProject); these are two
distinct properties of the JavaScript object and are kept distinct here. -/
structure Project where
  uid : String
  bummUid : Option String
  name : Option String
  status : String
  contractAddress : Option String
  contract_address : Option String
  deployment_status : Option String
  isDeployed : Bool
  isFrozen : Bool
  created_at : String
  updated_at : String
deriving DecidableEq, Repr

/-- A chat message as the Dashboard appends it; the generated id and
timestamp do not affect any claim and are omitted. -/
structure ChatMessage where
  content : String
  isUser : Bool
deriving DecidableEq, Repr

/-- JavaScript a || b for an optional string a: the fallback b is taken
when a is undefined and also when a is the empty string, because both are
falsy. -/
def jsOr (a : Option String) (b : String) : String :=
  match a with
  | none => b
  | some s => if s = "" then b else s

/-- JavaScript String.prototype.trim: strip leading and trailing
whitespace characters. -/
def jsTrim (s : String) : String :=
  String.mk (((s.data.dropWhile Char.isWhitespace).reverse.dropWhile
    Char.isWhitespace).reverse)

/-- One call to trackTaskStatus as issued by a Dashboard handler: the
first argument (the local project uid used to locate the Project for
state updates), the task type, and the final argument (the identifier
used for backend status polling). -/
structure TrackCall where
  localId : String
  taskType : TaskType
  pollId : String
deriving DecidableEq, Repr

/-- The trackTaskStatus call issued by handleBuild for the project
returned by buildContract (Dashboard.tsx lines 385-430): the first
argument is project.uid and the final polling argument is
project.bummUid || project.uid. -/
def buildTrackCall (project : Project) : TrackCall :=
  { localId := project.uid
    taskType := TaskType.build
    pollId := jsOr project.bummUid project.uid }

/-- Result of the generation branch of handleSendMessage: the project
with the backend id attached and the trackTaskStatus call it issues. -/
structure GenBranchResult where
  updatedProject : Project
  trackCall : TrackCall
deriving DecidableEq, Repr

/-- The generation branch of handleSendMessage (Dashboard.tsx lines
219-306): entered when the chat response has action generate and a truthy
bumm_uid. Here project is the current project, or the one just created
when none was selected. The branch attaches the backend bumm_uid to the
project, marks it in-progress, and calls trackTaskStatus with the project
uid as the first argument and the backend bumm_uid as the final polling
argument. -/
def handleSendMessage_generateBranch (project : Project) (action : String)
    (bumm_uid : Option String) : Option GenBranchResult :=
  match bumm_uid with
  | none => none
  | some b =>
    if action = "generate" ∧ b ≠ "" then
      let updatedProject : Project :=
        { project with bummUid := some b, status := "in-progress" }
      some { updatedProject := updatedProject
             trackCall := { localId := updatedProject.uid
                            taskType := TaskType.generate
                            pollId := b } }
    else none

/-- Observable outcome of one call to handleBuild: the chat transcript,
the projects collection (handleBuild itself never touches it), the
isBuilding flag, the trackTaskStatus call started (if any), and whether
the buildContract transport was invoked. -/
structure BuildResult where
  messages : List ChatMessage
  projects : List Project
  isBuilding : Bool
  trackStarted : Option TrackCall
  transportCalled : Bool
deriving DecidableEq, Repr

/-- handleBuild from Dashboard.tsx lines 353-441. The guard returns
immediately when there is no user or the code trims to the empty string.
Otherwise a status message is appended, buildContract is awaited
(buildResponse models its outcome), and on success a tracker is started
via buildTrackCall; on failure the isBuilding flag is cleared and an
error message appended. -/
def handleBuild (user : Option User) (code : String) (isBuilding0 : Bool)
    (msgs : List ChatMessage) (projects : List Project)
    (buildResponse : Except String Project) : BuildResult :=
  if user = none ∨ jsTrim code = "" then
    { messages := msgs, projects := projects, isBuilding := isBuilding0,
      trackStarted := none, transportCalled := false }
  else
    let msgs1 := msgs ++ [{ content := "🔧 Initializing build...", isUser := false }]
    match buildResponse with
    | .error e =>
      { messages := msgs1 ++ [{ content := "Failed to start build: " ++ e, isUser := false }]
        projects := projects
        isBuilding := false
        trackStarted := none
        transportCalled := true }
    | .ok project =>
      { messages := msgs1
        projects := projects
        isBuilding := true
        trackStarted := some (buildTrackCall project)
        transportCalled := true }

/-- Observable outcome of one call to handleDeploy: the chat transcript,
the projects collection, the current project, the value returned to the
caller (none models undefined), whether the handler re-threw, and whether
the deployContract transport was invoked. -/
structure DeployResult where
  messages : List ChatMessage
  projects : List Project
  currentProject : Option Project
  retVal : Option String
  threw : Bool
  transportCalled : Bool
deriving DecidableEq, Repr

/-- The project update handleDeploy applies on success when a current
project is selected (Dashboard.tsx lines 460-474): the replacement entry
is built from the current project, receiving the contract address, the
deployed flags and a fresh updated_at stamp. -/
def deployedUpdate (cp : Project) (contractAddr : String) (nowIso : String) : Project :=
  { cp with contractAddress := some contractAddr
            isDeployed := true
            status := "deployed"
            updated_at := nowIso }

/-- handleDeploy from Dashboard.tsx lines 443-501. The guard returns
undefined when there is no user or the code trims to the empty string.
Otherwise a start message is appended and deployContract is awaited
(deployResponse models its outcome). On success, when a current project
is selected, exactly the entries whose uid matches it are replaced by
deployedUpdate; the bare contract address string is returned. On failure
an error message is appended and the error is re-thrown. -/
def handleDeploy (user : Option User) (code : String)
    (currentProject : Option Project) (projects : List Project)
    (msgs : List ChatMessage) (deployResponse : Except String String)
    (nowIso : String) : DeployResult :=
  if user = none ∨ jsTrim code = "" then
    { messages := msgs, projects := projects, currentProject := currentProject,
      retVal := none, threw := false, transportCalled := false }
  else
    let msgs1 := msgs ++ [{ content := "Starting deployment...", isUser := false }]
    match deployResponse with
    | .error e =>
      { messages := msgs1 ++ [{ content := "Deployment failed: " ++ e, isUser := false }]
        projects := projects
        currentProject := currentProject
        retVal := none
        threw := true
        transportCalled := true }
    | .ok contractAddr =>
      let successMsg : ChatMessage :=
        { content := "Deployment successful! Your smart contract is now live on Solana. Contract address: " ++ contractAddr
          isUser := false }
      match currentProject with
      | none =>
        { messages := msgs1 ++ [successMsg]
          projects := projects
          currentProject := none
          retVal := some contractAddr
          threw := false
          transportCalled := true }
      | some cp =>
        let updated := deployedUpdate cp contractAddr nowIso
        { messages := msgs1 ++ [successMsg]
          projects := projects.map (fun p => if p.uid = cp.uid then updated else p)
          currentProject := some updated
          retVal := some contractAddr
          threw := false
          transportCalled := true }

/-- The copy built by handleDuplicateProject (Dashboard.tsx lines
654-679): a spread of the original with a generated uid, a name derived
from the original name (or Untitled when the name is falsy) suffixed with
a Copy marker, fresh timestamps, and the deployment-related fields reset. -/
def duplicatedProjectOf (project : Project) (nowMs : Nat) (nowIso : String) : Project :=
  { project with
      uid := "project_" ++ toString nowMs
      name := some (jsOr project.name "Untitled" ++ " (Copy)")
      created_at := nowIso
      updated_at := nowIso
      isDeployed := false
      isFrozen := false
      contract_address := none
      deployment_status := none }

/-- handleDuplicateProject from Dashboard.tsx lines 654-679: the copy is
prepended to the projects collection, which is otherwise untouched. The
chat notice the handler also appends does not affect the collection and
is not modelled. -/
def handleDuplicateProject (project : Project) (projects : List Project)
    (nowMs : Nat) (nowIso : String) : List Project :=
  duplicatedProjectOf project nowMs nowIso :: projects

/-- Sample project used by the witness of claim C4. -/
def c4SampleProject : Project :=
  { uid := "p1", bummUid := none, name := some "Demo", status := "draft",
    contractAddress := none, contract_address := none,
    deployment_status := none, isDeployed := false, isFrozen := false,
    created_at := "2024-01-01", updated_at := "2024-01-01" }

/-- Expected result of the generation branch on the C4 sample project. -/
def c4SampleGenResult : GenBranchResult :=
  { updatedProject :=
      { c4SampleProject with bummUid := some "b1", status := "in-progress" }
    trackCall := { localId := "p1", taskType := TaskType.generate, pollId := "b1" } }

/-- Sample project with a backend id used by the witness of claim C4. -/
def c4SampleBuildProject : Project :=
  { uid := "p2", bummUid := some "b2", name := none, status := "generated",
    contractAddress := none, contract_address := none,
    deployment_status := none, isDeployed := false, isFrozen := false,
    created_at := "t0", updated_at := "t0" }

/-- Project whose bummUid is present but empty, used by the
counterexample of claim C4: the build poll argument falls back to the
local uid although a backend id is present. -/
def c4CexProject : Project :=
  { uid := "local1", bummUid := some "", name := none, status := "draft",
    contractAddress := none, contract_address := none,
    deployment_status := none, isDeployed := false, isFrozen := false,
    created_at := "t0", updated_at := "t0" }

/-- Sample user for the witness of claim C8. -/
def c8SampleUser : User := { id := "u1", walletAddress := "w1" }

/-- Sample current project for the witness of claim C8. -/
def c8ProjA : Project :=
  { uid := "pa", bummUid := none, name := some "A", status := "built",
    contractAddress := none, contract_address := none,
    deployment_status := none, isDeployed := false, isFrozen := false,
    created_at := "t0", updated_at := "t0" }

/-- Sample bystander project for the witness of claim C8. -/
def c8ProjB : Project :=
  { uid := "pb", bummUid := none, name := some "B", status := "draft",
    contractAddress := none, contract_address := none,
    deployment_status := none, isDeployed := false, isFrozen := false,
    created_at := "t0", updated_at := "t0" }

/-- Project whose name is present but empty, used by the counterexample
of claim C10: the duplicate is named from the Untitled fallback, not from
the original name. -/
def c10CexProject : Project :=
  { uid := "p9", bummUid := none, name := some "", status := "draft",
    contractAddress := none, contract_address := none,
    deployment_status := none, isDeployed := true, isFrozen := true,
    created_at := "t0", updated_at := "t0" }
/-- Helper: getProgressFromStatus falls through to the default tuple on
every status outside the progress table. -/
lemma getProgressFromStatus_default (s : String) (h : s ∉ progressStatusKeys) :
    getProgressFromStatus s = ⟨"initializing", 0, "Processing..."⟩ := by
  simp only [progressStatusKeys, List.mem_cons, List.not_mem_nil, or_false, not_or] at h
  obtain ⟨h1, h2, h3, h4, h5, h6, h7, h8, h9, h10, h11, h12, h13⟩ := h
  unfold getProgressFromStatus
  rw [if_neg h1, if_neg h2, if_neg h3, if_neg h4, if_neg h5, if_neg h6,
    if_neg h7, if_neg h8, if_neg h9, if_neg h10, if_neg h11, if_neg h12,
    if_neg h13]

/-- Helper: getStatusDisplayName falls through to the raw status string
on every status outside the display-name table. -/
lemma getStatusDisplayName_default (s : String) (h : s ∉ displayStatusKeys) :
    getStatusDisplayName s = s := by
  simp only [displayStatusKeys, List.mem_cons, List.not_mem_nil, or_false, not_or] at h
  obtain ⟨h1, h2, h3, h4, h5, h6, h7, h8, h9, h10, h11, h12, h13, h14⟩ := h
  unfold getStatusDisplayName
  rw [if_neg h1, if_neg h2, if_neg h3, if_neg h4, if_neg h5, if_neg h6,
    if_neg h7, if_neg h8, if_neg h9, if_neg h10, if_neg h11, if_neg h12,
    if_neg h13, if_neg h14]

/-- Claim C1: isTaskCompleted is true exactly when the task type is
generate and the status is generated or deployed, the task type is audit
and the status is audited, the task type is build and the status is
built, or the task type is deploy and the status is deployed; every other
combination is false, in particular generated is not complete for audit. -/
theorem C1_isTaskCompleted_characterization :
    (∀ (s : String) (t : TaskType),
      isTaskCompleted s t = true ↔
        ((t = TaskType.generate ∧ (s = "generated" ∨ s = "deployed")) ∨
         (t = TaskType.audit ∧ s = "audited") ∨
         (t = TaskType.build ∧ s = "built") ∨
         (t = TaskType.deploy ∧ s = "deployed"))) ∧
    isTaskCompleted "generated" TaskType.audit = false := by
  constructor
  · intro s t
    cases t <;> simp [isTaskCompleted]
  · decide

/-- Claim C2: isTaskError returns true if and only if the status is
exactly the literal error string; the function takes no task type at all,
so the result cannot depend on one. -/
theorem C2_isTaskError_iff :
    ∀ s : String, isTaskError s = true ↔ s = "error" := by
  intro s
  simp [isTaskError]

/-- Claim C3: a status string outside the classification tables does not
fail either lookup: getProgressFromStatus returns exactly the default
non-terminal tuple and getStatusDisplayName returns the raw string
unchanged. -/
theorem C3_unrecognized_status_defaults (s : String)
    (hp : s ∉ progressStatusKeys) (hd : s ∉ displayStatusKeys) :
    getProgressFromStatus s =
      { stage := "initializing", progress := 0, message := "Processing..." } ∧
    getStatusDisplayName s = s :=
  ⟨getProgressFromStatus_default s hp, getStatusDisplayName_default s hd⟩

/-- Witness for C3 at the concrete unrecognized status finalizing. -/
theorem C3_unrecognized_status_defaults_witness :
    "finalizing" ∉ progressStatusKeys ∧ "finalizing" ∉ displayStatusKeys ∧
    (getProgressFromStatus "finalizing" =
        { stage := "initializing", progress := 0, message := "Processing..." } ∧
      getStatusDisplayName "finalizing" = "finalizing") :=
  ⟨by decide, by decide,
    C3_unrecognized_status_defaults "finalizing" (by decide) (by decide)⟩

/-- Claim C5: for every status string, recognized or not, the progress
percentage returned by getProgressFromStatus lies between 0 and 100
inclusive (it is a natural number, hence an integer). -/
theorem C5_progress_bounds :
    ∀ s : String,
      0 ≤ (getProgressFromStatus s).progress ∧
        (getProgressFromStatus s).progress ≤ 100 := by
  intro s
  refine ⟨Nat.zero_le _, ?_⟩
  by_cases h : s ∈ progressStatusKeys
  · fin_cases h <;> decide
  · rw [getProgressFromStatus_default s h]
    decide

/-- Claim C6: the classification functions are total (they are functions
defined on all of String and TaskType) and deterministic: two evaluations
at equal inputs yield identical results, with no dependence on anything
outside the arguments. -/
theorem C6_classification_deterministic (s s' : String) (t t' : TaskType)
    (hs : s = s') (ht : t = t') :
    isTaskCompleted s t = isTaskCompleted s' t' ∧
    isTaskError s = isTaskError s' ∧
    getStatusDisplayName s = getStatusDisplayName s' ∧
    getProgressFromStatus s = getProgressFromStatus s' := by
  subst hs
  subst ht
  exact ⟨rfl, rfl, rfl, rfl⟩

/-- Witness for C6 at the concrete status generated and task type
generate. -/
theorem C6_classification_deterministic_witness :
    ("generated" : String) = "generated" ∧
    (isTaskCompleted "generated" TaskType.generate =
        isTaskCompleted "generated" TaskType.generate ∧
      isTaskError "generated" = isTaskError "generated" ∧
      getStatusDisplayName "generated" = getStatusDisplayName "generated" ∧
      getProgressFromStatus "generated" = getProgressFromStatus "generated") :=
  ⟨rfl, C6_classification_deterministic "generated" "generated"
    TaskType.generate TaskType.generate rfl rfl⟩

/-- Claim C9: the recognized generate status initialized is listed in
TASK_STATUS.GENERATE and has a specific display name, yet it is absent
from the progress table, so getProgressFromStatus returns the default
tuple reserved for unrecognized statuses. -/
theorem C9_initialized_progress_gap :
    "initialized" ∈ TASK_STATUS_GENERATE ∧
    "initialized" ∉ progressStatusKeys ∧
    getProgressFromStatus "initialized" =
      { stage := "initializing", progress := 0, message := "Processing..." } ∧
    getStatusDisplayName "initialized" = "Initialized" := by
  refine ⟨by decide, by decide, by decide, by decide⟩

/-- Claim C4 (amended): at every trackTaskStatus call site the first
argument is the local project uid and the final polling argument is the
backend task identifier: the chat response bumm_uid for a generate task,
and for a build task the project bummUid, falling back to the project uid
exactly when bummUid is absent or empty (JavaScript falsiness); no call
site swaps the two. -/
theorem C4_track_identifiers (project : Project) (action : String)
    (b : String) (r : GenBranchResult)
    (hr : handleSendMessage_generateBranch project action (some b) = some r)
    (p : Project) :
    (r.trackCall.localId = project.uid ∧
     r.trackCall.taskType = TaskType.generate ∧
     r.trackCall.pollId = b) ∧
    ((buildTrackCall p).localId = p.uid ∧
     (buildTrackCall p).taskType = TaskType.build ∧
     ((∃ s, p.bummUid = some s ∧ s ≠ "" ∧ (buildTrackCall p).pollId = s) ∨
      ((p.bummUid = none ∨ p.bummUid = some "") ∧
        (buildTrackCall p).pollId = p.uid))) := by
  constructor
  · simp only [handleSendMessage_generateBranch] at hr
    by_cases hc : action = "generate" ∧ b ≠ ""
    · rw [if_pos hc] at hr
      injection hr with h
      subst h
      exact ⟨rfl, rfl, rfl⟩
    · rw [if_neg hc] at hr
      exact absurd hr (by simp)
  · refine ⟨rfl, rfl, ?_⟩
    cases hb : p.bummUid with
    | none =>
      refine Or.inr ⟨Or.inl rfl, ?_⟩
      simp [buildTrackCall, jsOr, hb]
    | some s =>
      by_cases hs : s = ""
      · subst hs
        refine Or.inr ⟨Or.inr rfl, ?_⟩
        simp [buildTrackCall, jsOr, hb]
      · refine Or.inl ⟨s, rfl, hs, ?_⟩
        simp [buildTrackCall, jsOr, hb, hs]

/-- Witness for C4 at concrete inputs: a generate response with backend
id b1 on project p1, and a build project with backend id b2. -/
theorem C4_track_identifiers_witness :
    handleSendMessage_generateBranch c4SampleProject "generate" (some "b1") =
      some c4SampleGenResult ∧
    ((c4SampleGenResult.trackCall.localId = c4SampleProject.uid ∧
      c4SampleGenResult.trackCall.taskType = TaskType.generate ∧
      c4SampleGenResult.trackCall.pollId = "b1") ∧
     ((buildTrackCall c4SampleBuildProject).localId = c4SampleBuildProject.uid ∧
      (buildTrackCall c4SampleBuildProject).taskType = TaskType.build ∧
      ((∃ s, c4SampleBuildProject.bummUid = some s ∧ s ≠ "" ∧
          (buildTrackCall c4SampleBuildProject).pollId = s) ∨
       ((c4SampleBuildProject.bummUid = none ∨
          c4SampleBuildProject.bummUid = some "") ∧
        (buildTrackCall c4SampleBuildProject).pollId = c4SampleBuildProject.uid)))) :=
  ⟨by decide, C4_track_identifiers c4SampleProject "generate" "b1"
    c4SampleGenResult (by decide) c4SampleBuildProject⟩

/-- Counterexample for C4 as stated: on a project whose bummUid is
present but empty, handleBuild polls with the local uid, so the fallback
is not restricted to an absent bummUid. -/
theorem C4_track_identifiers_counterexample :
    c4CexProject.bummUid = some "" ∧
    (buildTrackCall c4CexProject).pollId = c4CexProject.uid ∧
    (buildTrackCall c4CexProject).pollId ≠ "" := by decide

/-- Helper: a string all of whose characters are whitespace trims to the
empty string, so the JavaScript guard on code.trim() fires. -/
lemma jsTrim_eq_empty_of_whitespace (s : String)
    (h : ∀ c ∈ s.data, c.isWhitespace = true) : jsTrim s = "" := by
  unfold jsTrim
  have hd : s.data.dropWhile Char.isWhitespace = [] :=
    List.dropWhile_eq_nil_iff.mpr h
  rw [hd]
  rfl

/-- Claim C7: with no current user or an all-whitespace code argument,
handleBuild and handleDeploy return at the guard without invoking the
transport, starting a tracker, appending a chat message or mutating any
project, and handleDeploy returns undefined. -/
theorem C7_guard_no_side_effects (user : Option User) (code : String)
    (isB : Bool) (msgs : List ChatMessage) (projects : List Project)
    (cp : Option Project) (br : Except String Project)
    (dr : Except String String) (nowIso : String)
    (h : user = none ∨ ∀ c ∈ code.data, c.isWhitespace = true) :
    handleBuild user code isB msgs projects br =
      { messages := msgs, projects := projects, isBuilding := isB,
        trackStarted := none, transportCalled := false } ∧
    handleDeploy user code cp projects msgs dr nowIso =
      { messages := msgs, projects := projects, currentProject := cp,
        retVal := none, threw := false, transportCalled := false } := by
  have hguard : user = none ∨ jsTrim code = "" := by
    cases h with
    | inl h => exact Or.inl h
    | inr h => exact Or.inr (jsTrim_eq_empty_of_whitespace code h)
  constructor
  · unfold handleBuild
    rw [if_pos hguard]
  · unfold handleDeploy
    rw [if_pos hguard]

/-- Witness for C7 at the concrete inputs of no user and the code string
abc. -/
theorem C7_guard_no_side_effects_witness :
    ((none : Option User) = none ∨
      ∀ c ∈ ("abc" : String).data, c.isWhitespace = true) ∧
    (handleBuild none "abc" false [] [] (Except.error "e") =
        { messages := [], projects := [], isBuilding := false,
          trackStarted := none, transportCalled := false } ∧
      handleDeploy none "abc" none [] [] (Except.error "e") "t1" =
        { messages := [], projects := [], currentProject := none,
          retVal := none, threw := false, transportCalled := false }) :=
  ⟨Or.inl rfl, C7_guard_no_side_effects none "abc" false [] [] none
    (Except.error "e") (Except.error "e") "t1" (Or.inl rfl)⟩

/-- Claim C8: when handleDeploy succeeds with a current project selected,
the caller-side attachment updates exactly the entries of the projects
collection whose uid equals the current project uid, replacing them with
the current project carrying the contract address, the deployed flags and
a fresh updated_at; every other entry is unchanged, and the value
returned is the bare contract address string from the transport. -/
theorem C8_deploy_attaches_address (u : User) (code : String) (cp : Project)
    (projects : List Project) (msgs : List ChatMessage)
    (addr nowIso : String) (i : Nat) (q : Project)
    (hcode : jsTrim code ≠ "") (hq : projects[i]? = some q) :
    (handleDeploy (some u) code (some cp) projects msgs
      (Except.ok addr) nowIso).retVal = some addr ∧
    (handleDeploy (some u) code (some cp) projects msgs
      (Except.ok addr) nowIso).threw = false ∧
    (handleDeploy (some u) code (some cp) projects msgs
      (Except.ok addr) nowIso).projects.length = projects.length ∧
    (handleDeploy (some u) code (some cp) projects msgs
      (Except.ok addr) nowIso).projects[i]? =
      some (if q.uid = cp.uid then deployedUpdate cp addr nowIso else q) ∧
    (handleDeploy (some u) code (some cp) projects msgs
      (Except.ok addr) nowIso).currentProject =
      some (deployedUpdate cp addr nowIso) := by
  have hg : ¬((some u : Option User) = none ∨ jsTrim code = "") := by
    simp [hcode]
  refine ⟨?_, ?_, ?_, ?_, ?_⟩
  · unfold handleDeploy
    rw [if_neg hg]
  · unfold handleDeploy
    rw [if_neg hg]
  · unfold handleDeploy
    rw [if_neg hg]
    show (projects.map (fun p =>
      if p.uid = cp.uid then deployedUpdate cp addr nowIso else p)).length =
        projects.length
    exact List.length_map _ _
  · unfold handleDeploy
    rw [if_neg hg]
    show (projects.map (fun p =>
      if p.uid = cp.uid then deployedUpdate cp addr nowIso else p))[i]? = _
    rw [List.getElem?_map, hq]
    rfl
  · unfold handleDeploy
    rw [if_neg hg]

/-- Witness for C8 at concrete inputs: a two-project collection in which
the current project pa is deployed to address addr1 and the bystander pb
is untouched. -/
theorem C8_deploy_attaches_address_witness :
    jsTrim "code" ≠ "" ∧ [c8ProjA, c8ProjB][1]? = some c8ProjB ∧
    ((handleDeploy (some c8SampleUser) "code" (some c8ProjA)
        [c8ProjA, c8ProjB] [] (Except.ok "addr1") "t1").retVal = some "addr1" ∧
      (handleDeploy (some c8SampleUser) "code" (some c8ProjA)
        [c8ProjA, c8ProjB] [] (Except.ok "addr1") "t1").threw = false ∧
      (handleDeploy (some c8SampleUser) "code" (some c8ProjA)
        [c8ProjA, c8ProjB] [] (Except.ok "addr1") "t1").projects.length =
        [c8ProjA, c8ProjB].length ∧
      (handleDeploy (some c8SampleUser) "code" (some c8ProjA)
        [c8ProjA, c8ProjB] [] (Except.ok "addr1") "t1").projects[1]? =
        some (if c8ProjB.uid = c8ProjA.uid then deployedUpdate c8ProjA "addr1" "t1"
          else c8ProjB) ∧
      (handleDeploy (some c8SampleUser) "code" (some c8ProjA)
        [c8ProjA, c8ProjB] [] (Except.ok "addr1") "t1").currentProject =
        some (deployedUpdate c8ProjA "addr1" "t1")) :=
  ⟨by decide, rfl, C8_deploy_attaches_address c8SampleUser "code" c8ProjA
    [c8ProjA, c8ProjB] [] "addr1" "t1" 1 c8ProjB (by decide) rfl⟩

/-- Claim C10 (amended): handleDuplicateProject prepends to the projects
collection a copy whose deployment-related fields are always reset
regardless of the original values, with a generated uid, fresh
timestamps, and a name that is the original name suffixed with the Copy
marker when the name is present and non-empty, and the Untitled fallback
suffixed with the Copy marker otherwise; the rest of the collection,
including the original entry, is left unchanged. -/
theorem C10_duplicate_resets (project : Project) (projects : List Project)
    (nowMs : Nat) (nowIso : String) :
    handleDuplicateProject project projects nowMs nowIso =
      duplicatedProjectOf project nowMs nowIso :: projects ∧
    (duplicatedProjectOf project nowMs nowIso).isDeployed = false ∧
    (duplicatedProjectOf project nowMs nowIso).isFrozen = false ∧
    (duplicatedProjectOf project nowMs nowIso).contract_address = none ∧
    (duplicatedProjectOf project nowMs nowIso).deployment_status = none ∧
    (duplicatedProjectOf project nowMs nowIso).uid = "project_" ++ toString nowMs ∧
    (duplicatedProjectOf project nowMs nowIso).created_at = nowIso ∧
    (duplicatedProjectOf project nowMs nowIso).updated_at = nowIso ∧
    ((∃ n, project.name = some n ∧ n ≠ "" ∧
        (duplicatedProjectOf project nowMs nowIso).name = some (n ++ " (Copy)")) ∨
     ((project.name = none ∨ project.name = some "") ∧
       (duplicatedProjectOf project nowMs nowIso).name = some "Untitled (Copy)")) := by
  refine ⟨rfl, rfl, rfl, rfl, rfl, rfl, rfl, rfl, ?_⟩
  cases hn : project.name with
  | none =>
    refine Or.inr ⟨Or.inl rfl, ?_⟩
    simp only [duplicatedProjectOf, hn]
    decide
  | some n =>
    by_cases h : n = ""
    · subst h
      refine Or.inr ⟨Or.inr rfl, ?_⟩
      simp only [duplicatedProjectOf, hn]
      decide
    · refine Or.inl ⟨n, rfl, h, ?_⟩
      simp only [duplicatedProjectOf, hn, jsOr]
      rw [if_neg h]

/-- Counterexample for C10 as stated: on a project whose name is present
but empty, the duplicate is named from the Untitled fallback, not by
suffixing the original name. -/
theorem C10_duplicate_counterexample :
    c10CexProject.name = some "" ∧
    (duplicatedProjectOf c10CexProject 5 "t1").name = some "Untitled (Copy)" ∧
    (duplicatedProjectOf c10CexProject 5 "t1").name ≠ some ("" ++ " (Copy)") := by
  decide
